import Mathlib

/-!
Verification development for the poepenai protocol bridge.

The development shallowly embeds the Go sources:
  * `service/mapper.go` — role mapping tables, the event-to-chunk transducer
    (`TransformPoeEventToOpenAIChatCompletionChunk`), the non-streaming
    aggregator (`AggregatePoeEventsToOpenAIResponse`);
  * `client/client.go` — the SSE frame parser inside `performStreamQuery`,
    the HTTP status check, and the retry loop of `StreamQuery`;
  * `handlers/chat.go` — the per-session streaming loop that drives the
    transducer.

JSON payloads are modelled by an explicit inductive `JsonVal`; the raw
`Data : string` field of an SSE event is modelled as either a well-formed
JSON value or an unparsable blob (`EventData`), and Go's `json.Unmarshal`
into the concrete payload structs is transcribed field by field.
-/

namespace Poepenai

/-- A JSON value, modelling Go's `interface{}` as produced by `encoding/json`.
Numbers are modelled as integers; no claim depends on number formatting. -/
inductive JsonVal where
  | jnull : JsonVal
  | jbool : Bool → JsonVal
  | jnum : Int → JsonVal
  | jstr : String → JsonVal
  | jarr : List JsonVal → JsonVal
  | jobj : List (String × JsonVal) → JsonVal

/-- A decoded JSON object, modelling Go's `map[string]interface{}` as an
association list (keys unique after JSON decoding). -/
abbrev JsonObj := List (String × JsonVal)

/-- First-match lookup in a JSON object, modelling Go's map indexing. -/
def jlookup (kvs : JsonObj) (k : String) : Option JsonVal :=
  match kvs with
  | [] => none
  | (k', v) :: rest => if k' = k then some v else jlookup rest k

/-- The `Data` string of a Poe SSE event as seen by `json.Unmarshal`:
either not valid JSON at all, or a decoded JSON value. -/
inductive EventData where
  | malformed : String → EventData
  | val : JsonVal → EventData

/-- A Poe SSE event as consumed by the mapper (`types.PoeSSEEvent` with its
`Data` field abstracted to its JSON decoding). -/
structure PoeEvent where
  event : String
  data : EventData

/-- Embedding of `types.PoePartialResponseData` (types/poe.go): the payload of
"text", "replace_response" and "json" events.  Only the fields read by
mapper.go are stored; the two boolean fields are type-checked on decode. -/
structure PoePartialResponseData where
  text : String := ""
  data : JsonObj := []

/-- Embedding of `types.PoeErrorEventData` (types/poe.go): the payload of "error" events. -/
structure PoeErrorEventData where
  allowRetry : Bool := false
  text : Option String := none
  errorType : Option String := none
deriving Repr, DecidableEq

/-- Decode a struct field of JSON-string type: absent or null keeps the zero
value, a string sets it, any other type is an unmarshal error (Go
`encoding/json` semantics). -/
def fieldString (kvs : JsonObj) (k : String) : Option String :=
  match jlookup kvs k with
  | none => some ""
  | some JsonVal.jnull => some ""
  | some (JsonVal.jstr s) => some s
  | some _ => none

/-- Decode a struct field of pointer-to-string type (`*string`): absent or
null leaves `nil`, a string allocates, any other type errors. -/
def fieldStringPtr (kvs : JsonObj) (k : String) : Option (Option String) :=
  match jlookup kvs k with
  | none => some none
  | some JsonVal.jnull => some none
  | some (JsonVal.jstr s) => some (some s)
  | some _ => none

/-- Decode a struct field of boolean type. -/
def fieldBool (kvs : JsonObj) (k : String) : Option Bool :=
  match jlookup kvs k with
  | none => some false
  | some JsonVal.jnull => some false
  | some (JsonVal.jbool b) => some b
  | some _ => none

/-- Decode a struct field of type `map[string]interface{}`. -/
def fieldObj (kvs : JsonObj) (k : String) : Option JsonObj :=
  match jlookup kvs k with
  | none => some []
  | some JsonVal.jnull => some []
  | some (JsonVal.jobj o) => some o
  | some _ => none

/-- Model of `json.Unmarshal` of an event data string into `PoePartialResponseData`:
fails on malformed JSON, on a non-object non-null top level, or on a field
of the wrong type; otherwise fills the struct fields. -/
def unmarshalPartialData (d : EventData) : Option PoePartialResponseData :=
  match d with
  | EventData.malformed _ => none
  | EventData.val JsonVal.jnull => some {}
  | EventData.val (JsonVal.jobj kvs) =>
      match fieldString kvs "text", fieldObj kvs "data",
            fieldBool kvs "is_suggested_reply", fieldBool kvs "is_replace_response" with
      | some t, some o, some _, some _ => some { text := t, data := o }
      | _, _, _, _ => none
  | EventData.val _ => none

/-- Model of `json.Unmarshal` of an event data string into `PoeErrorEventData`. -/
def unmarshalError (d : EventData) : Option PoeErrorEventData :=
  match d with
  | EventData.malformed _ => none
  | EventData.val JsonVal.jnull => some {}
  | EventData.val (JsonVal.jobj kvs) =>
      match fieldBool kvs "allow_retry", fieldStringPtr kvs "text",
            fieldStringPtr kvs "error_type" with
      | some ar, some t, some et => some { allowRetry := ar, text := t, errorType := et }
      | _, _, _ => none
  | EventData.val _ => none

/-- Embedding of `OpenAIToPoeRole` (mapper.go lines 20-43): maps OpenAI message roles to
their Poe protocol equivalents.  Go's `switch` is transcribed as an
if-chain. -/
def OpenAIToPoeRole (openAIRole : String) : String :=
  if openAIRole = "system" then "system"
  else if openAIRole = "user" then "user"
  else if openAIRole = "developer" then "user"
  else if openAIRole = "assistant" then "bot"
  else if openAIRole = "tool" then "user"
  else "user"

/-- Embedding of `MapPoeRoleToOpenAIRole` (mapper.go lines 258-271): maps Poe roles back
to OpenAI roles; unknown roles default to "assistant". -/
def MapPoeRoleToOpenAIRole (poeRole : String) : String :=
  if poeRole = "system" then "system"
  else if poeRole = "user" then "user"
  else if poeRole = "bot" then "assistant"
  else "assistant"

/-- Go `strings.HasPrefix`, via the character list of the string. -/
def goHasPre (s pre : String) : Bool :=
  pre.toList.isPrefixOf s.toList

/-- Go `strings.TrimPrefix`: drop `tag` from the front of `s` when present,
otherwise return `s` unchanged. -/
def goStripTag (s tag : String) : String :=
  if goHasPre s tag then (s.toList.drop tag.toList.length).asString else s

/-- Modelled from the spec: the downstream tool-call function shape
(`types.OpenAIToolCall.Function`); the struct declaration is not under
src/, its zero-value ("" fields) behaviour is visible in mapper.go. -/
structure OpenAIToolFunction where
  name : String := ""
  arguments : String := ""
deriving Repr, DecidableEq

/-- Modelled from the spec: the downstream tool-call shape
(`types.OpenAIToolCall`), §3 DownstreamChunk `toolCallDeltas` entries:
id, type, function name and arguments. -/
structure OpenAIToolCall where
  id : String := ""
  type : String := ""
  function : OpenAIToolFunction := {}
deriving Repr, DecidableEq

/-- One entry of `mapPoeToolCallDataToOpenAI` (mapper.go lines 486-530),
given that the entry is a JSON object: each present-and-string field is
copied, anything else keeps the zero value (only a warning in Go). -/
def mapOneToolCall (tcMap : JsonObj) : OpenAIToolCall :=
  let id := match jlookup tcMap "id" with
    | some (JsonVal.jstr s) => s
    | _ => ""
  let ty := match jlookup tcMap "type" with
    | some (JsonVal.jstr s) => s
    | _ => ""
  let fn := match jlookup tcMap "function" with
    | some (JsonVal.jobj fnMap) =>
        let nm := match jlookup fnMap "name" with
          | some (JsonVal.jstr s) => s
          | _ => ""
        let args := match jlookup fnMap "arguments" with
          | some (JsonVal.jstr s) => s
          | _ => ""
        OpenAIToolFunction.mk nm args
    | _ => ({} : OpenAIToolFunction)
  { id := id, type := ty, function := fn }

/-- Embedding of `mapPoeToolCallDataToOpenAI` (mapper.go lines 479-533): maps the
`tool_calls` array of a Poe "json" event; an item that is not a JSON object
is a hard error (`none`), otherwise each item maps via `mapOneToolCall`. -/
def mapPoeToolCallDataToOpenAI (items : List JsonVal) : Option (List OpenAIToolCall) :=
  match items with
  | [] => some []
  | item :: rest =>
      match item with
      | JsonVal.jobj tcMap =>
          match mapPoeToolCallDataToOpenAI rest with
          | some tcs => some (mapOneToolCall tcMap :: tcs)
          | none => none
      | _ => none

/-- The per-session mutable flags threaded by pointer through
`TransformPoeEventToOpenAIChatCompletionChunk` (spec §3 TransducerState). -/
structure TransducerState where
  isFirstContentChunk : Bool
  hasMadeToolCall : Bool
deriving Repr, DecidableEq

/-- Modelled from the spec: the delta of a DownstreamChunk (§3) —
`types.OpenAIStreamChoice.Delta` is not under src/; mapper.go shows its
zero values: empty role/content strings and a nil tool-call slice. -/
structure OpenAIStreamDelta where
  role : String := ""
  content : String := ""
  toolCalls : Option (List OpenAIToolCall) := none
deriving Repr, DecidableEq

/-- Modelled from the spec: one streaming choice, delta plus nullable
finish reason (`types.OpenAIStreamChoice`). -/
structure OpenAIStreamChoice where
  delta : OpenAIStreamDelta := {}
  finishReason : Option String := none
deriving Repr, DecidableEq

/-- Modelled from the spec: a DownstreamChunk (§3) —
`types.OpenAIChatCompletionChunk` with the fields mapper.go fills. -/
structure OpenAIChatCompletionChunk where
  id : String
  object : String
  created : Int
  model : String
  choices : List OpenAIStreamChoice
deriving Repr, DecidableEq

/-- Outcome of one transducer call, mirroring the Go `([]byte, error)`
return: `fail` is a non-nil error, `skip` is `(nil, nil)`, `emit` is a
serialized chunk. -/
inductive TransformResult where
  | fail : String → TransformResult
  | skip : TransformResult
  | emit : OpenAIChatCompletionChunk → TransformResult
deriving Repr, DecidableEq

/-- The tool-call / content extraction of the "json" event branch
(mapper.go lines 356-386): dig `choices[0].delta`; tool calls are kept only
when the mapping succeeds and yields a non-empty list; content only when it
is a non-empty string.  Returns (tool calls or none, content). -/
def jsonDeltaExtract (d : PoePartialResponseData) :
    Option (List OpenAIToolCall) × String :=
  match jlookup d.data "choices" with
  | some (JsonVal.jarr (c0 :: _)) =>
      match c0 with
      | JsonVal.jobj choiceMap =>
          match jlookup choiceMap "delta" with
          | some (JsonVal.jobj deltaMap) =>
              let tcs : Option (List OpenAIToolCall) :=
                match jlookup deltaMap "tool_calls" with
                | some (JsonVal.jarr tcData) =>
                    match mapPoeToolCallDataToOpenAI tcData with
                    | some toolCalls =>
                        if toolCalls.length > 0 then some toolCalls else none
                    | none => none
                | _ => none
              let content : String :=
                match jlookup deltaMap "content" with
                | some (JsonVal.jstr c) => if c ≠ "" then c else ""
                | _ => ""
              (tcs, content)
          | _ => (none, "")
      | _ => (none, "")
  | _ => (none, "")

/-- The common tail of the transducer (mapper.go lines 433-454): suppress a
chunk with no content, no tool calls, no finish reason and no role set;
otherwise emit the chunk and, when the role was set this chunk, clear the
`isFirstContentChunk` flag. -/
def finalizeChunk (choice : OpenAIStreamChoice) (roleWasSetThisChunk : Bool)
    (requestModelID completionID : String) (createdTimestamp : Int)
    (st : TransducerState) : TransformResult × TransducerState :=
  if choice.delta.content = "" ∧ choice.delta.toolCalls = none ∧
      choice.finishReason = none ∧ roleWasSetThisChunk = false then
    (TransformResult.skip, st)
  else
    (TransformResult.emit
      { id := completionID, object := "chat.completion.chunk",
        created := createdTimestamp, model := requestModelID,
        choices := [choice] },
     if roleWasSetThisChunk then { st with isFirstContentChunk := false } else st)

/-- Embedding of `TransformPoeEventToOpenAIChatCompletionChunk` (mapper.go lines
287-473): the stateful event-to-chunk transducer.  The two Go pointer
flags are the explicit `TransducerState`; Go's `switch` on the event type
is an if-chain. -/
def TransformPoeEventToOpenAIChatCompletionChunk (poeEvent : PoeEvent)
    (requestModelID completionID : String) (createdTimestamp : Int)
    (st : TransducerState) : TransformResult × TransducerState :=
  if poeEvent.event = "text" then
    match unmarshalPartialData poeEvent.data with
    | none => (TransformResult.fail "error unmarshalling Poe 'text' event data", st)
    | some d =>
        let roleWasSet := st.isFirstContentChunk
        finalizeChunk
          { delta := { role := if roleWasSet then "assistant" else "",
                       content := d.text } }
          roleWasSet requestModelID completionID createdTimestamp st
  else if poeEvent.event = "replace_response" then
    match unmarshalPartialData poeEvent.data with
    | none => (TransformResult.fail "error unmarshalling Poe 'replace_response' event data", st)
    | some d =>
        let roleWasSet := st.isFirstContentChunk
        finalizeChunk
          { delta := { role := if roleWasSet then "assistant" else "",
                       content := d.text } }
          roleWasSet requestModelID completionID createdTimestamp st
  else if poeEvent.event = "suggested_reply" then
    (TransformResult.skip, st)
  else if poeEvent.event = "meta" then
    (TransformResult.skip, st)
  else if poeEvent.event = "json" then
    match unmarshalPartialData poeEvent.data with
    | none =>
        (TransformResult.fail
          "error unmarshalling Poe 'json' event data string to PoePartialResponseData", st)
    | some d =>
        let ex := jsonDeltaExtract d
        let st' := if ex.1.isSome then { st with hasMadeToolCall := true } else st
        let roleWasSet := st.isFirstContentChunk && (ex.1.isSome || ex.2 != "")
        finalizeChunk
          { delta := { role := if roleWasSet then "assistant" else "",
                       content := ex.2, toolCalls := ex.1 } }
          roleWasSet requestModelID completionID createdTimestamp st'
  else if poeEvent.event = "error" then
    match unmarshalError poeEvent.data with
    | none =>
        (TransformResult.fail "terminate_stream_with_error: Poe bot reported an unparsable error", st)
    | some errData =>
        let errMsg := match errData.text with
          | some t => if t ≠ "" then t else "Poe bot reported an error."
          | none => "Poe bot reported an error."
        (TransformResult.fail ("terminate_stream_with_error: " ++ errMsg), st)
  else if poeEvent.event = "done" then
    let finishReasonStr := if st.hasMadeToolCall then "tool_calls" else "stop"
    -- Go guards the role set with `content == "" && toolCalls == nil`;
    -- both hold definitionally for the freshly zeroed delta of this branch.
    let roleWasSet := st.isFirstContentChunk
    finalizeChunk
      { delta := { role := if roleWasSet then "assistant" else "" },
        finishReason := some finishReasonStr }
      roleWasSet requestModelID completionID createdTimestamp st
  else
    (TransformResult.skip, st)

/-- The streaming loop of `HandleChatCompletions` (handlers/chat.go): each
received event is transformed in order; a transform error aborts the
session only when it carries the `terminate_stream_with_error:` prefix
(otherwise the loop continues); emitted chunks are written in order; after
a "done" event the loop returns.  Result: ordered written chunks and the
final transducer state. -/
def runSession (requestModelID completionID : String) (createdTimestamp : Int) :
    List PoeEvent → TransducerState →
      List OpenAIChatCompletionChunk × TransducerState
  | [], st => ([], st)
  | e :: rest, st =>
      let r := TransformPoeEventToOpenAIChatCompletionChunk e
        requestModelID completionID createdTimestamp st
      match r.1 with
      | TransformResult.fail msg =>
          if goHasPre msg "terminate_stream_with_error:" then ([], r.2)
          else runSession requestModelID completionID createdTimestamp rest r.2
      | TransformResult.skip =>
          if e.event = "done" then ([], r.2)
          else runSession requestModelID completionID createdTimestamp rest r.2
      | TransformResult.emit c =>
          if e.event = "done" then ([c], r.2)
          else
            let next := runSession requestModelID completionID createdTimestamp rest r.2
            (c :: next.1, next.2)

/-- The transducer state reached after feeding every event of a list, in
order, through the transducer (the pointer flags after the session loop,
for runs that process the whole list). -/
def runAllState (requestModelID completionID : String) (createdTimestamp : Int)
    (evs : List PoeEvent) (st : TransducerState) : TransducerState :=
  evs.foldl
    (fun s e =>
      (TransformPoeEventToOpenAIChatCompletionChunk e
        requestModelID completionID createdTimestamp s).2)
    st

/-- Escape one character for JSON string output (the escapes relevant to
this development; `encoding/json` escapes more, which no claim observes). -/
def escapeJsonChar (c : Char) : String :=
  if c = '"' then "\\\""
  else if c = '\\' then "\\\\"
  else if c = '\n' then "\\n"
  else if c = '\t' then "\\t"
  else if c = '\r' then "\\r"
  else String.singleton c

/-- Quote a string as a JSON string literal. -/
def quoteJson (s : String) : String :=
  "\"" ++ String.join (s.toList.map escapeJsonChar) ++ "\""

/-- Insert a (key, serialized value) pair into a key-sorted list, modelling
`encoding/json`'s sorted map-key output order. -/
def insertPairSorted (p : String × String) :
    List (String × String) → List (String × String)
  | [] => [p]
  | q :: rest =>
      if p.1 ≤ q.1 then p :: q :: rest else q :: insertPairSorted p rest

/-- Insertion sort of (key, serialized value) pairs by key. -/
def sortPairs (ps : List (String × String)) : List (String × String) :=
  ps.foldr insertPairSorted []

mutual

/-- Model of `json.Marshal` of a decoded JSON value (used by the aggregator's
stringify fallback); object keys are emitted in sorted order as
`encoding/json` does for maps. -/
def marshalJson : JsonVal → String
  | JsonVal.jnull => "null"
  | JsonVal.jbool b => if b then "true" else "false"
  | JsonVal.jnum n => toString n
  | JsonVal.jstr s => quoteJson s
  | JsonVal.jarr xs => "[" ++ String.intercalate "," (marshalList xs) ++ "]"
  | JsonVal.jobj kvs =>
      "\x7b" ++
        String.intercalate ","
          ((sortPairs (marshalPairs kvs)).map
            (fun kv => quoteJson kv.1 ++ ":" ++ kv.2)) ++
        "\x7d"

/-- Serialize every element of a JSON array. -/
def marshalList : List JsonVal → List String
  | [] => []
  | v :: vs => marshalJson v :: marshalList vs

/-- Serialize every value of a JSON object, keeping keys. -/
def marshalPairs : List (String × JsonVal) → List (String × String)
  | [] => []
  | (k, v) :: rest => (k, marshalJson v) :: marshalPairs rest

end

/-- The accumulator of `AggregatePoeEventsToOpenAIResponse` (mapper.go
lines 548-552): the content builder, the finish reason, the merged
tool-call list and the last bot-reported error text. -/
structure AggState where
  responseContent : String
  finalFinishReason : String
  openAIToolCalls : List OpenAIToolCall
  poeReportedErrorText : String
deriving Repr, DecidableEq

/-- Initial aggregation accumulator (empty builder, "stop", no tool calls). -/
def aggInit : AggState :=
  { responseContent := "", finalFinishReason := "stop",
    openAIToolCalls := [], poeReportedErrorText := "" }

/-- One iteration of the aggregation loop of
`AggregatePoeEventsToOpenAIResponse` (mapper.go lines 554-664), Go's
`switch` transcribed as an if-chain over the event type. -/
def aggStep (st : AggState) (e : PoeEvent) : AggState :=
  if e.event = "text" then
    match unmarshalPartialData e.data with
    | none => st
    | some d => { st with responseContent := st.responseContent ++ d.text }
  else if e.event = "replace_response" then
    match unmarshalPartialData e.data with
    | none => st
    | some d => { st with responseContent := d.text }
  else if e.event = "json" then
    match unmarshalPartialData e.data with
    | none => st
    | some d =>
        match jlookup d.data "choices" with
        | some (JsonVal.jarr (c0 :: _)) =>
            (match c0 with
             | JsonVal.jobj choiceMap =>
                 (match jlookup choiceMap "delta" with
                  | some (JsonVal.jobj deltaMap) =>
                      let st1 :=
                        match jlookup deltaMap "tool_calls" with
                        | some (JsonVal.jarr tcData) =>
                            (match mapPoeToolCallDataToOpenAI tcData with
                             | some mappedTcs =>
                                 { st with openAIToolCalls := st.openAIToolCalls ++ mappedTcs }
                             | none => st)
                        | _ => st
                      (match jlookup deltaMap "content" with
                       | some (JsonVal.jstr c) =>
                           if c ≠ "" then
                             { st1 with responseContent := st1.responseContent ++ c }
                           else st1
                       | _ => st1)
                  | _ => st)
             | _ => st)
        | some (JsonVal.jarr []) =>
            -- `ok && len(choicesList) > 0` fails on an empty array: fall
            -- through to the direct `tool_calls` probe, then stringify.
            aggStepJsonFallback st d
        | _ => aggStepJsonFallback st d
  else if e.event = "done" then
    if st.openAIToolCalls.length > 0 then
      { st with finalFinishReason := "tool_calls" }
    else
      { st with finalFinishReason := "stop" }
  else if e.event = "error" then
    match unmarshalError e.data with
    | some errData =>
        (match errData.text with
         | some t =>
             { st with
               poeReportedErrorText := t,
               responseContent := st.responseContent ++ "\n[POE BOT ERROR]: " ++ t,
               finalFinishReason := "stop" }
         | none =>
             { st with
               poeReportedErrorText := "An unspecified error occurred from Poe bot.",
               responseContent :=
                 st.responseContent ++
                   "\n[POE BOT ERROR]: An unspecified error occurred from Poe bot.",
               finalFinishReason := "stop" })
    | none =>
        { st with
          poeReportedErrorText := "An unspecified error occurred from Poe bot.",
          responseContent :=
            st.responseContent ++
              "\n[POE BOT ERROR]: An unspecified error occurred from Poe bot.",
          finalFinishReason := "stop" }
  else
    st
where
  /-- The two fallback arms of the "json" case (mapper.go lines 612-629):
  a top-level `tool_calls` array is merged; anything else is stringified
  into the content builder. -/
  aggStepJsonFallback (st : AggState) (d : PoePartialResponseData) : AggState :=
    match jlookup d.data "tool_calls" with
    | some (JsonVal.jarr tcData) =>
        (match mapPoeToolCallDataToOpenAI tcData with
         | some mappedTcs =>
             { st with openAIToolCalls := st.openAIToolCalls ++ mappedTcs }
         | none => st)
    | _ =>
        { st with responseContent := st.responseContent ++ marshalJson (JsonVal.jobj d.data) }

/-- Modelled from the spec: the final message of a DownstreamResponse (§3)
— nullable content, tool-call list (`types.OpenAIResponseMessage`). -/
structure OpenAIResponseMessage where
  role : String
  content : Option String
  toolCalls : List OpenAIToolCall
deriving Repr, DecidableEq

/-- Modelled from the spec: one non-streaming choice
(`types.OpenAIChoice`). -/
structure OpenAIChoice where
  index : Nat
  message : OpenAIResponseMessage
  finishReason : String
deriving Repr, DecidableEq

/-- Modelled from the spec: the zeroed usage record (§3, §4.4). -/
structure OpenAIUsage where
  promptTokens : Nat
  completionTokens : Nat
  totalTokens : Nat
deriving Repr, DecidableEq

/-- Modelled from the spec: the DownstreamResponse
(`types.OpenAIChatCompletionResponse`). -/
structure OpenAIChatCompletionResponse where
  id : String
  object : String
  created : Int
  model : String
  choices : List OpenAIChoice
  usage : OpenAIUsage
deriving Repr, DecidableEq

/-- The response construction at the end of
`AggregatePoeEventsToOpenAIResponse` (mapper.go lines 666-698): content is
absent exactly when the accumulated text is empty and tool calls exist. -/
def aggBuild (st : AggState) (requestModelID completionID : String)
    (createdTimestamp : Int) : OpenAIChatCompletionResponse :=
  let contentStr := st.responseContent
  let contentPtr : Option String :=
    if contentStr ≠ "" ∨ (st.openAIToolCalls.length = 0 ∧ contentStr = "") then
      some contentStr
    else none
  { id := completionID, object := "chat.completion",
    created := createdTimestamp, model := requestModelID,
    choices := [{ index := 0,
                  message := { role := "assistant", content := contentPtr,
                               toolCalls := st.openAIToolCalls },
                  finishReason := st.finalFinishReason }],
    usage := { promptTokens := 0, completionTokens := 0, totalTokens := 0 } }

/-- Embedding of `AggregatePoeEventsToOpenAIResponse` (mapper.go lines 537-705): fold
the complete event list through `aggStep` from the initial accumulator,
then build the single non-streaming response.  The function is a pure fold
of its four arguments: the Go body reads no clock and no randomness. -/
def AggregatePoeEventsToOpenAIResponse (poeEvents : List PoeEvent)
    (requestModelID completionID : String) (createdTimestamp : Int) :
    OpenAIChatCompletionResponse :=
  aggBuild (poeEvents.foldl aggStep aggInit) requestModelID completionID
    createdTimestamp

/-- Go `unicode.IsSpace` on the ASCII whitespace the protocol produces
(the full Unicode space classes never occur in SSE framing bytes). -/
def isSpaceChar (c : Char) : Bool :=
  c = ' ' || c = '\t' || c = '\n' || c = '\x0b' || c = '\x0c' || c = '\r'

/-- Drop leading whitespace characters. -/
def dropSpacesLeft : List Char → List Char
  | [] => []
  | c :: rest => if isSpaceChar c then dropSpacesLeft rest else c :: rest

/-- Go `strings.TrimSpace`: remove leading and trailing whitespace. -/
def goTrimSpace (s : String) : String :=
  ((dropSpacesLeft ((dropSpacesLeft s.toList).reverse)).reverse).asString

/-- Embedding of `types.PoeSSEEvent` as produced by the SSE frame parser: event label
and raw data string (zero values are empty strings). -/
structure PoeSSEEvent where
  event : String := ""
  data : String := ""
deriving Repr, DecidableEq

/-- The SSE read loop of `performStreamQuery` (client.go lines 286-356),
over the list of newline-terminated lines `ReadBytes` yields.
The `[]` case is the EOF branch (lines 294-307): a final line without a
newline is read but its content ignored; a pending event is flushed. -/
def sseLoop : List String → PoeSSEEvent → String → List PoeSSEEvent
  | [], currentEvent, accumulatedData =>
      if accumulatedData.length > 0 ∨ currentEvent.event ≠ "" then
        [{ currentEvent with data := goTrimSpace accumulatedData }]
      else []
  | line :: rest, currentEvent, accumulatedData =>
      if goHasPre line "event:" then
        -- lines 326-340: dispatch a pending event only when it has a
        -- label; reset the accumulator; start the new event.
        let emitted :=
          if accumulatedData.length > 0 ∨ currentEvent.event ≠ "" then
            if currentEvent.event ≠ "" then
              [{ currentEvent with data := goTrimSpace accumulatedData }]
            else []
          else []
        let accumulatedData' :=
          if accumulatedData.length > 0 ∨ currentEvent.event ≠ "" then ""
          else accumulatedData
        emitted ++
          sseLoop rest { event := goTrimSpace (goStripTag line "event:"), data := "" }
            accumulatedData'
      else if goHasPre line "data:" then
        -- lines 341-344: append the remainder after the "data:" tag, with
        -- its leading space and trailing newline intact.
        sseLoop rest currentEvent (accumulatedData ++ goStripTag line "data:")
      else if goTrimSpace line = "" then
        -- lines 345-354: a blank line terminates the pending event, even
        -- one with an empty label.
        if currentEvent.event ≠ "" ∨ accumulatedData.length > 0 then
          { currentEvent with data := goTrimSpace accumulatedData } :: sseLoop rest {} ""
        else sseLoop rest currentEvent accumulatedData
      else
        sseLoop rest currentEvent accumulatedData

/-- Split a byte stream into the newline-terminated lines `ReadBytes('\n')`
returns; a trailing fragment with no newline is dropped, as the EOF branch
of the read loop ignores the content of an unterminated final line. -/
def completeLinesAux : List Char → List Char → List String
  | [], _cur => []
  | c :: rest, cur =>
      if c = '\n' then (cur ++ [c]).asString :: completeLinesAux rest []
      else completeLinesAux rest (cur ++ [c])

/-- The newline-terminated lines of a stream. -/
def completeLines (s : String) : List String :=
  completeLinesAux s.toList []

/-- The SSE framing of `performStreamQuery` applied to a whole byte
stream: the ordered list of events dispatched. -/
def parseSSEStream (s : String) : List PoeSSEEvent :=
  sseLoop (completeLines s) {} ""

/-- Embedding of `maxRetries` (client.go line 27). -/
def maxRetries : Nat := 2

/-- The HTTP status check of `performStreamQuery` (client.go lines
256-284): `http.StatusOK` is 200; any other status is a per-attempt
failure whose message captures the status and the response body (or the
body read error). -/
def checkHTTPStatus (statusCode : Nat) (readBody : Except String String) :
    Option String :=
  if statusCode ≠ 200 then
    match readBody with
    | Except.error readErr =>
        some ("poe API request failed with status " ++ toString statusCode ++
          " and could not read error body: " ++ readErr)
    | Except.ok body =>
        some ("poe API request failed with status " ++ toString statusCode ++
          ": " ++ body)
  else none

/-- The retry loop of the `StreamQuery` goroutine (client.go lines 74-112),
with the attempt body abstracted: `attempt i` is the error returned by
`performStreamQuery` on attempt index `i` (`none` = success) and
`ctxDone i` whether the caller's context is observed cancelled after
failed attempt `i`.  The fuel argument is the remaining loop iterations
(`maxRetries + 1` at the start); the accumulator `i` counts attempts made
and `lastErr` is the last attempt error.  Returns the number of attempts
performed and the errors delivered on the buffered error channel. -/
def streamQueryLoop (botName : String) (attempt : Nat → Option String)
    (ctxDone : Nat → Bool) :
    Nat → Nat → Option String → Nat × List String
  | 0, i, lastErr =>
      (i, ["failed to query bot " ++ botName ++ " after " ++
             toString maxRetries ++ " retries: " ++ lastErr.getD ""])
  | fuel + 1, i, _lastErr =>
      match attempt i with
      | none => (i + 1, [])
      | some err =>
          if ctxDone i then
            (i + 1, ["context cancelled during retry: context canceled"])
          else
            streamQueryLoop botName attempt ctxDone fuel (i + 1) (some err)

/-- Embedding of `StreamQuery` (client.go lines 61-115): run the retry loop with the
default budget from attempt 0. -/
def StreamQuery (botName : String) (attempt : Nat → Option String)
    (ctxDone : Nat → Bool) : Nat × List String :=
  streamQueryLoop botName attempt ctxDone (maxRetries + 1) 0 none

/-- Whether a streaming chunk carries a role (a non-empty `role` field in
some choice's delta; Go omits the zero value "" on the wire). -/
def chunkCarriesRole (c : OpenAIChatCompletionChunk) : Bool :=
  c.choices.any (fun ch => ch.delta.role != "")

/-- How many chunks of a session carry a role. -/
def roleChunkCount (cs : List OpenAIChatCompletionChunk) : Nat :=
  (cs.filter chunkCarriesRole).length

/-- Whether a transducer outcome emits a chunk that carries a role. -/
def emitCarriesRole (r : TransformResult) : Bool :=
  match r with
  | TransformResult.emit c => chunkCarriesRole c
  | _ => false

/-- The finish reason of an emitted chunk's (single) choice, if any. -/
def emittedFinishReason (r : TransformResult) : Option String :=
  match r with
  | TransformResult.emit c => (c.choices.headD {}).finishReason
  | _ => none

/-- Characterization (read off the source branches) of the events on which
the transducer performs the role transition when it is still pending:
a "text" or "replace_response" event with parsable payload (even with empty
text), a "json" event whose payload yields tool calls or non-empty
content, or the "done" event. -/
def roleTrigger (e : PoeEvent) : Bool :=
  if e.event = "text" ∨ e.event = "replace_response" then
    (unmarshalPartialData e.data).isSome
  else if e.event = "json" then
    match unmarshalPartialData e.data with
    | some d => (jsonDeltaExtract d).1.isSome || (jsonDeltaExtract d).2 != ""
    | none => false
  else decide (e.event = "done")

/-- Characterization (read off the source) of the events on which the
transducer sets the `hasMadeToolCall` flag: a "json" event whose payload
yields a non-empty, successfully mapped tool-call list. -/
def setsToolCall (e : PoeEvent) : Bool :=
  if e.event = "json" then
    match unmarshalPartialData e.data with
    | some d => (jsonDeltaExtract d).1.isSome
    | none => false
  else false

/-- The text the aggregator appends after the `[POE BOT ERROR]: ` marker
for an error event with the given payload (mapper.go lines 637-648): the
bot-reported text when the payload parses and carries one, otherwise the
generic fallback. -/
def errorMarkerText (d : EventData) : String :=
  match unmarshalError d with
  | some errData =>
      match errData.text with
      | some t => t
      | none => "An unspecified error occurred from Poe bot."
  | none => "An unspecified error occurred from Poe bot."

/-- Fixture: a "text" event whose payload parses with empty text. -/
def exTextEmptyEvent : PoeEvent :=
  { event := "text", data := EventData.val (JsonVal.jobj [("text", JsonVal.jstr "")]) }

/-- Fixture: a "text" event carrying the text "Hi". -/
def exTextHiEvent : PoeEvent :=
  { event := "text", data := EventData.val (JsonVal.jobj [("text", JsonVal.jstr "Hi")]) }

/-- Fixture: a "done" event (its payload is ignored by both consumers). -/
def exDoneEvent : PoeEvent :=
  { event := "done", data := EventData.val (JsonVal.jobj []) }

/-- Fixture: a "json" event carrying one tool call with id "1", matching
the spec's tool-call scenario. -/
def exToolCallEvent : PoeEvent :=
  { event := "json",
    data := EventData.val (JsonVal.jobj
      [("data", JsonVal.jobj
        [("choices", JsonVal.jarr
          [JsonVal.jobj
            [("delta", JsonVal.jobj
              [("tool_calls", JsonVal.jarr
                [JsonVal.jobj
                  [("id", JsonVal.jstr "1"),
                   ("type", JsonVal.jstr "function"),
                   ("function", JsonVal.jobj
                     [("name", JsonVal.jstr "f"),
                      ("arguments", JsonVal.jstr "\x7b\x7d")])]])])]])])]) }

/-- Fixture: an "error" event whose payload carries the text "boom". -/
def exErrorEvent : PoeEvent :=
  { event := "error", data := EventData.val (JsonVal.jobj [("text", JsonVal.jstr "boom")]) }

/-- C10: mapping each of the three standard OpenAI roles ("system",
"user", "assistant") into the Poe vocabulary with `OpenAIToPoeRole` and
back with `MapPoeRoleToOpenAIRole` is the identity; every other inbound
role collapses to "user" after the round trip. -/
theorem role_round_trip (r : String) :
    MapPoeRoleToOpenAIRole (OpenAIToPoeRole "system") = "system" ∧
    MapPoeRoleToOpenAIRole (OpenAIToPoeRole "user") = "user" ∧
    MapPoeRoleToOpenAIRole (OpenAIToPoeRole "assistant") = "assistant" ∧
    (r ≠ "system" → r ≠ "user" → r ≠ "assistant" →
      MapPoeRoleToOpenAIRole (OpenAIToPoeRole r) = "user") := by
  refine ⟨by decide, by decide, by decide, ?_⟩
  intro h1 h2 h3
  unfold OpenAIToPoeRole
  rw [if_neg h1, if_neg h2]
  by_cases hd : r = "developer"
  · rw [if_pos hd]; decide
  · rw [if_neg hd, if_neg h3]
    by_cases ht : r = "tool"
    · rw [if_pos ht]; decide
    · rw [if_neg ht]; decide

/-- Witness for C10 at the concrete non-standard role "tool". -/
theorem role_round_trip_witness :
    ("tool" : String) ≠ "system" ∧ ("tool" : String) ≠ "user" ∧
    ("tool" : String) ≠ "assistant" ∧
    MapPoeRoleToOpenAIRole (OpenAIToPoeRole "tool") = "user" :=
  ⟨by decide, by decide, by decide,
    (role_round_trip "tool").2.2.2 (by decide) (by decide) (by decide)⟩

/-- C9: the aggregator is deterministic — two runs of
`AggregatePoeEventsToOpenAIResponse` on the same event list, model id,
completion id and timestamp are identical, and the result is exactly the
pure fold of `aggStep` over the events (no hidden clock or randomness). -/
theorem aggregator_deterministic (poeEvents : List PoeEvent) (m c : String) (t : Int) :
    AggregatePoeEventsToOpenAIResponse poeEvents m c t =
      AggregatePoeEventsToOpenAIResponse poeEvents m c t ∧
    AggregatePoeEventsToOpenAIResponse poeEvents m c t =
      aggBuild (List.foldl aggStep aggInit poeEvents) m c t :=
  ⟨rfl, rfl⟩

/-- The retry loop performs at most as many further attempts as it has
fuel, counting from the attempts already made. -/
theorem streamQueryLoop_bound (bot : String) (a : Nat → Option String)
    (cd : Nat → Bool) (fuel i : Nat) (last : Option String) :
    (streamQueryLoop bot a cd fuel i last).1 ≤ i + fuel := by
  induction fuel generalizing i last with
  | zero => simp [streamQueryLoop]
  | succ n ih =>
      unfold streamQueryLoop
      cases ha : a i with
      | none => simp
      | some err =>
          by_cases hc : cd i
          · simp [hc]
          · simp only [hc, if_false, Bool.false_eq_true]
            have := ih (i + 1) (some err)
            omega

/-- When attempts 0, 1 and 2 all fail and the context is never observed
cancelled, the retry loop exhausts its budget and delivers exactly the
aggregate error wrapping the last attempt's cause. -/
theorem streamQuery_fail3 (bot : String) (a : Nat → Option String)
    (cd : Nat → Bool) (e0 e1 e2 : String)
    (h0 : a 0 = some e0) (h1 : a 1 = some e1) (h2 : a 2 = some e2)
    (c0 : cd 0 = false) (c1 : cd 1 = false) (c2 : cd 2 = false) :
    StreamQuery bot a cd =
      (3, ["failed to query bot " ++ bot ++ " after " ++ toString maxRetries ++
             " retries: " ++ e2]) := by
  show streamQueryLoop bot a cd 3 0 none = _
  rw [show (3 : Nat) = 2 + 1 from rfl]
  unfold streamQueryLoop
  rw [h0, c0]
  simp only [Bool.false_eq_true, if_false]
  rw [show (2 : Nat) = 1 + 1 from rfl]
  unfold streamQueryLoop
  rw [h1, c1]
  simp only [Bool.false_eq_true, if_false]
  rw [show (1 : Nat) = 0 + 1 from rfl]
  unfold streamQueryLoop
  rw [h2, c2]
  simp only [Bool.false_eq_true, if_false]
  unfold streamQueryLoop
  rfl

/-- C5: the upstream query session performs at most `maxRetries + 1`
attempts (3 under the default budget), and when all three attempts fail
without cancellation it delivers exactly one terminal failure on the error
channel: the aggregate error wrapping the last attempt's cause. -/
theorem retry_budget_and_aggregate_error (bot : String)
    (attempt : Nat → Option String) (ctxDone : Nat → Bool) (e0 e1 e2 : String)
    (h0 : attempt 0 = some e0) (h1 : attempt 1 = some e1)
    (h2 : attempt 2 = some e2) (hc : ∀ i, ctxDone i = false) :
    (∀ (a : Nat → Option String) (cd : Nat → Bool),
        (StreamQuery bot a cd).1 ≤ maxRetries + 1) ∧
    StreamQuery bot attempt ctxDone =
      (maxRetries + 1,
       ["failed to query bot " ++ bot ++ " after " ++ toString maxRetries ++
          " retries: " ++ e2]) ∧
    (StreamQuery bot attempt ctxDone).2.length = 1 := by
  have hrun := streamQuery_fail3 bot attempt ctxDone e0 e1 e2 h0 h1 h2
    (hc 0) (hc 1) (hc 2)
  refine ⟨?_, hrun, by rw [hrun]; rfl⟩
  intro a cd
  have := streamQueryLoop_bound bot a cd (maxRetries + 1) 0 none
  simpa [StreamQuery] using this

/-- Witness for C5: a session whose three attempts all fail with "boom". -/
theorem retry_budget_witness :
    StreamQuery "b" (fun _ => some "boom") (fun _ => false) =
      (maxRetries + 1,
       ["failed to query bot b after " ++ toString maxRetries ++ " retries: boom"]) :=
  (retry_budget_and_aggregate_error "b" (fun _ => some "boom") (fun _ => false)
    "boom" "boom" "boom" rfl rfl rfl (fun _ => rfl)).2.1

/-- C6 counterexample: status 201 is a 2xx status, yet the code treats it
as a per-attempt failure (it checks `!= 200`, not "not 2xx"). -/
theorem http_status_2xx_counterexample :
    (200 ≤ 201 ∧ 201 < 300) ∧
    checkHTTPStatus 201 (Except.ok "Created") =
      some "poe API request failed with status 201: Created" :=
  ⟨by decide, rfl⟩

/-- C6 (amended): within one attempt, a response whose status is not
exactly 200 is a hard per-attempt failure whose detail captures the status
and the response body; a 200 response is not a per-attempt failure; such a
failure stays subject to the retry budget (three attempts, then the
aggregate error). -/
theorem http_status_check (s : Nat) (b bot : String) (h : s ≠ 200) :
    checkHTTPStatus s (Except.ok b) =
      some ("poe API request failed with status " ++ toString s ++ ": " ++ b) ∧
    (∀ rb, checkHTTPStatus 200 rb = none) ∧
    StreamQuery bot (fun _ => checkHTTPStatus s (Except.ok b)) (fun _ => false) =
      (maxRetries + 1,
       ["failed to query bot " ++ bot ++ " after " ++ toString maxRetries ++
          " retries: " ++
          ("poe API request failed with status " ++ toString s ++ ": " ++ b)]) := by
  have hfail : checkHTTPStatus s (Except.ok b) =
      some ("poe API request failed with status " ++ toString s ++ ": " ++ b) := by
    unfold checkHTTPStatus
    rw [if_pos h]
  refine ⟨hfail, ?_, ?_⟩
  · intro rb
    unfold checkHTTPStatus
    simp
  · exact streamQuery_fail3 bot _ _ _ _ _ hfail hfail hfail rfl rfl rfl

/-- Witness for C6 at the concrete failing status 404. -/
theorem http_status_check_witness :
    checkHTTPStatus 404 (Except.ok "nf") =
      some ("poe API request failed with status " ++ toString 404 ++ ": nf") :=
  (http_status_check 404 "nf" "b" (by decide)).1

/-- Character-list view of string concatenation. -/
theorem toList_append_eq (s t : String) :
    (s ++ t).toList = s.toList ++ t.toList := by
  simp [String.toList]

/-- A string always has itself as a prefix of any extension. -/
theorem goHasPre_pre_append (pre r : String) : goHasPre (pre ++ r) pre = true := by
  unfold goHasPre
  rw [toList_append_eq]
  exact List.isPrefixOf_iff_prefix.mpr (List.prefix_append _ _)

/-- Stripping a tag from a string that starts with it leaves the rest. -/
theorem goStripTag_pre_append (pre r : String) : goStripTag (pre ++ r) pre = r := by
  unfold goStripTag
  rw [goHasPre_pre_append]
  rw [if_pos rfl, toList_append_eq, List.drop_left]
  exact String.asString_toList r

/-- A line starting with the `data:` tag does not start with `event:`. -/
theorem goHasPre_data_not_event (r : String) :
    goHasPre ("data:" ++ r) "event:" = false := by
  unfold goHasPre
  rw [toList_append_eq]
  rw [show ("event:".toList) = 'e' :: "vent:".toList from rfl]
  rw [show ("data:".toList ++ r.toList) = 'd' :: ("ata:".toList ++ r.toList) from rfl]
  simp [List.isPrefixOf]

/-- The empty string is the only string of length zero. -/
theorem str_of_length_zero (s : String) (h : s.length = 0) : s = "" := by
  have h2 : s.data.length = 0 := h
  have h3 : s.data = [] := List.length_eq_zero.mp h2
  cases s
  simp_all

/-- C3 (amended): each `data:` line appends to the event's accumulator the
remainder of the line after removing only the `data:` tag — keeping the
remainder's leading space and its newline; no separator is inserted and no
per-line trim happens; the accumulated data is trimmed once at emission.
In particular `"data: foo\ndata: bar\n\n"` parses to one event whose data
is `"foo\n bar"`. -/
theorem sse_data_line_concatenation (r : String) (rest : List String)
    (cur : PoeSSEEvent) (acc : String) :
    sseLoop (("data:" ++ r) :: rest) cur acc = sseLoop rest cur (acc ++ r) ∧
    parseSSEStream "data: foo\ndata: bar\n\n" = [{ event := "", data := "foo\n bar" }] := by
  constructor
  · conv_lhs => rw [sseLoop]
    rw [goHasPre_data_not_event, goHasPre_pre_append, goStripTag_pre_append]
    simp
  · rfl

/-- C3 counterexample: the concrete multi-line input of the claim parses
to data `"foo\n bar"`, not to the claimed `"foobar"` — the `data:` line
remainders keep their leading space and newline. -/
theorem sse_concat_counterexample :
    parseSSEStream "data: foo\ndata: bar\n\n" = [{ event := "", data := "foo\n bar" }] ∧
    (parseSSEStream "data: foo\ndata: bar\n\n").all (fun ev => ev.data != "foobar") = true :=
  ⟨rfl, rfl⟩

/-- C4 (amended): when an `event:` line arrives, the pending event is
finalized (data := trimmed accumulator) and emitted before the new event —
but only when the pending event's label is non-empty; accumulated data
under an empty label is discarded without emission.  In both cases the
accumulator is empty afterwards and the new event's label is the trimmed
remainder of the line. -/
theorem sse_event_line_dispatch (r : String) (rest : List String)
    (cur : PoeSSEEvent) (acc : String) :
    sseLoop (("event:" ++ r) :: rest) cur acc =
      (if cur.event ≠ "" then [{ cur with data := goTrimSpace acc }] else []) ++
        sseLoop rest { event := goTrimSpace r, data := "" } "" := by
  conv_lhs => rw [sseLoop]
  rw [goHasPre_pre_append, goStripTag_pre_append]
  by_cases hev : cur.event = ""
  · by_cases hacc : acc.length > 0
    · simp [hev, hacc]
    · have hzero : acc = "" := str_of_length_zero acc (by omega)
      subst hzero
      simp [hev]
  · simp [hev]

/-- C4 counterexample: on `"data: x\nevent: e\n\n"` the accumulated data
`"x"` of the label-less pending event is discarded when the `event:` line
arrives — no event carrying `"x"` is ever emitted, contradicting the
claim that the prior event is finalized and emitted. -/
theorem sse_event_line_counterexample :
    parseSSEStream "data: x\nevent: e\n\n" = [{ event := "e", data := "" }] ∧
    (parseSSEStream "data: x\nevent: e\n\n").all (fun ev => ev.data != "x") = true :=
  ⟨rfl, rfl⟩

/-- C7: in the aggregated response, content is present (even as the empty
string) whenever no tool calls were merged, and content is absent exactly
when at least one tool call was merged and the accumulated text is empty. -/
theorem aggregate_content_nullability (poeEvents : List PoeEvent)
    (m c : String) (t : Int) :
    (((AggregatePoeEventsToOpenAIResponse poeEvents m c t).choices.map
        (fun ch => ch.message.content)) = [none] ↔
      ((poeEvents.foldl aggStep aggInit).openAIToolCalls ≠ [] ∧
        (poeEvents.foldl aggStep aggInit).responseContent = "")) ∧
    ((poeEvents.foldl aggStep aggInit).openAIToolCalls = [] →
      ((AggregatePoeEventsToOpenAIResponse poeEvents m c t).choices.map
        (fun ch => ch.message.content)) =
        [some ((poeEvents.foldl aggStep aggInit).responseContent)]) := by
  unfold AggregatePoeEventsToOpenAIResponse aggBuild
  dsimp only
  split_ifs with h
  · constructor
    · simp only [List.map_cons, List.map_nil, List.cons.injEq, and_true]
      constructor
      · intro hh
        exact absurd hh (by simp)
      · rintro ⟨htc, hcont⟩
        rcases h with h | h
        · exact absurd hcont h
        · exact absurd (List.length_eq_zero.mp h.1) htc
    · intro _
      rfl
  · push_neg at h
    obtain ⟨hcont, hlen⟩ := h
    have htc : (poeEvents.foldl aggStep aggInit).openAIToolCalls ≠ [] := by
      intro hnil
      exact (hlen (by rw [hnil]; rfl)) hcont
    constructor
    · simp only [List.map_cons, List.map_nil]
      exact ⟨fun _ => ⟨htc, hcont⟩, fun _ => trivial⟩
    · intro hnil
      exact absurd hnil htc

/-- Witness for C7: a session with only text and a done event has content
present. -/
theorem aggregate_content_witness :
    ((AggregatePoeEventsToOpenAIResponse [exTextHiEvent, exDoneEvent] "m" "c" 0).choices.map
      (fun ch => ch.message.content)) = [some "Hi"] :=
  (aggregate_content_nullability [exTextHiEvent, exDoneEvent] "m" "c" 0).2 rfl

/-- One aggregation step only ever appends to the merged tool-call list. -/
theorem aggStep_toolCalls_mono (st : AggState) (e : PoeEvent) :
    ∃ l, (aggStep st e).openAIToolCalls = st.openAIToolCalls ++ l := by
  unfold aggStep aggStep.aggStepJsonFallback
  repeat' split
  all_goals first
    | exact ⟨_, rfl⟩
    | exact ⟨[], by simp⟩

/-- The aggregation fold only ever appends to the merged tool-call list. -/
theorem aggFold_toolCalls_mono (evs : List PoeEvent) (st : AggState) :
    ∃ l, (List.foldl aggStep st evs).openAIToolCalls = st.openAIToolCalls ++ l := by
  induction evs generalizing st with
  | nil => exact ⟨[], by simp⟩
  | cons e rest ih =>
      obtain ⟨l1, hl1⟩ := aggStep_toolCalls_mono st e
      obtain ⟨l2, hl2⟩ := ih (aggStep st e)
      exact ⟨l1 ++ l2, by simp [List.foldl_cons, hl2, hl1]⟩

/-- An aggregation step keeps the finish reason "stop" as long as no tool
calls have been merged. -/
theorem aggStep_finish_stop (st : AggState) (e : PoeEvent)
    (h1 : st.finalFinishReason = "stop") (h2 : st.openAIToolCalls = []) :
    (aggStep st e).finalFinishReason = "stop" := by
  unfold aggStep aggStep.aggStepJsonFallback
  repeat' split
  all_goals simp_all

/-- The aggregation fold keeps the finish reason "stop" when its result
has no merged tool calls. -/
theorem aggFold_finish_stop (evs : List PoeEvent) (st : AggState)
    (hstop : st.finalFinishReason = "stop")
    (hnil : (List.foldl aggStep st evs).openAIToolCalls = []) :
    (List.foldl aggStep st evs).finalFinishReason = "stop" := by
  induction evs generalizing st with
  | nil => simpa using hstop
  | cons e rest ih =>
      simp only [List.foldl_cons] at hnil ⊢
      obtain ⟨l2, hl2⟩ := aggFold_toolCalls_mono rest (aggStep st e)
      have h1 : (aggStep st e).openAIToolCalls = [] := by
        rw [hl2] at hnil
        exact (List.append_eq_nil.mp hnil).1
      obtain ⟨l1, hl1⟩ := aggStep_toolCalls_mono st e
      have h0 : st.openAIToolCalls = [] := by
        rw [hl1] at h1
        exact (List.append_eq_nil.mp h1).1
      exact ih (aggStep st e) (aggStep_finish_stop st e hstop h0) hnil

/-- C8 (amended): every error event appends the bot-reported text (or the
generic fallback when the payload is unparsable or carries no text) to the
content buffer as a `[POE BOT ERROR]` marker and sets the finish reason to
"stop" at that point; the final response's finish reason is "stop"
whenever no tool calls were merged anywhere in the sequence (a later
"done" event recomputes it from the merged tool-call list, see the
counterexample). -/
theorem error_event_marker_and_stop (st : AggState) (d : EventData)
    (poeEvents : List PoeEvent) (m c : String) (t : Int)
    (hhas : poeEvents.any (fun e => e.event == "error") = true)
    (hnotc : (poeEvents.foldl aggStep aggInit).openAIToolCalls = []) :
    (aggStep st { event := "error", data := d }).finalFinishReason = "stop" ∧
    (aggStep st { event := "error", data := d }).responseContent =
      st.responseContent ++ "\n[POE BOT ERROR]: " ++ errorMarkerText d ∧
    (AggregatePoeEventsToOpenAIResponse poeEvents m c t).choices.map
      (fun ch => ch.finishReason) = ["stop"] := by
  refine ⟨?_, ?_, ?_⟩
  · unfold aggStep
    simp only [reduceIte]
    cases hu : unmarshalError d with
    | none => simp
    | some errData =>
        cases ht : errData.text <;> simp [ht]
  · unfold aggStep errorMarkerText
    simp only [reduceIte]
    cases hu : unmarshalError d with
    | none =>
        simp only
        rw [String.append_assoc]
        rfl
    | some errData =>
        cases ht : errData.text with
        | none =>
            simp only [ht]
            rw [String.append_assoc]
            rfl
        | some tx =>
            simp [ht]
  · have hstop := aggFold_finish_stop poeEvents aggInit rfl hnotc
    unfold AggregatePoeEventsToOpenAIResponse aggBuild
    simp [hstop]

/-- Witness for C8: a session with one error event and a done event, no
tool calls — the final finish reason is "stop". -/
theorem error_event_stop_witness :
    (AggregatePoeEventsToOpenAIResponse [exErrorEvent, exDoneEvent] "m" "c" 0).choices.map
      (fun ch => ch.finishReason) = ["stop"] :=
  (error_event_marker_and_stop aggInit exErrorEvent.data
    [exErrorEvent, exDoneEvent] "m" "c" 0 rfl rfl).2.2

/-- C8 counterexample: the sequence tool-call event, error event, done
event contains an error event, yet the aggregated finish reason is
"tool_calls", not "stop" — the later done event overrides the error's
"stop" using the merged tool calls. -/
theorem error_finish_counterexample :
    ([exToolCallEvent, exErrorEvent, exDoneEvent].any (fun e => e.event == "error") = true) ∧
    (AggregatePoeEventsToOpenAIResponse [exToolCallEvent, exErrorEvent, exDoneEvent]
        "m" "c" 0).choices.map (fun ch => ch.finishReason) = ["tool_calls"] :=
  ⟨rfl, rfl⟩

/-- The common transducer tail: the emitted chunk carries a role exactly
when `roleWasSetThisChunk`, the pending flag is cleared exactly then, and
the tool-call flag is untouched. -/
theorem finalizeChunk_spec (choice : OpenAIStreamChoice) (rws : Bool)
    (m c : String) (t : Int) (st : TransducerState)
    (hrole : choice.delta.role = if rws then "assistant" else "") :
    emitCarriesRole (finalizeChunk choice rws m c t st).1 = rws ∧
    (finalizeChunk choice rws m c t st).2.isFirstContentChunk =
      (st.isFirstContentChunk && !rws) ∧
    (finalizeChunk choice rws m c t st).2.hasMadeToolCall = st.hasMadeToolCall := by
  cases rws with
  | false =>
      simp only [Bool.false_eq_true, if_false] at hrole
      unfold finalizeChunk
      split_ifs with h <;> simp_all [emitCarriesRole, chunkCarriesRole]
  | true =>
      simp only [if_pos] at hrole
      unfold finalizeChunk
      rw [if_neg (by simp)]
      simp [emitCarriesRole, chunkCarriesRole, hrole]

/-- One transducer call: the emitted chunk carries a role exactly when the
pending flag was set and the event is a role trigger; the pending flag is
cleared exactly on that transition and never re-set; the tool-call flag
becomes true exactly on tool-call-bearing "json" events. -/
theorem transform_step_flags (e : PoeEvent) (m c : String) (t : Int)
    (st : TransducerState) :
    emitCarriesRole (TransformPoeEventToOpenAIChatCompletionChunk e m c t st).1 =
      (st.isFirstContentChunk && roleTrigger e) ∧
    (TransformPoeEventToOpenAIChatCompletionChunk e m c t st).2.isFirstContentChunk =
      (st.isFirstContentChunk && !roleTrigger e) ∧
    (TransformPoeEventToOpenAIChatCompletionChunk e m c t st).2.hasMadeToolCall =
      (st.hasMadeToolCall || setsToolCall e) := by
  unfold TransformPoeEventToOpenAIChatCompletionChunk roleTrigger setsToolCall
  by_cases h1 : e.event = "text"
  · simp only [h1, reduceIte, true_or, if_true]
    cases hu : unmarshalPartialData e.data with
    | none => simp [emitCarriesRole]
    | some d =>
        obtain ⟨f1, f2, f3⟩ := finalizeChunk_spec
          { delta := { role := if st.isFirstContentChunk then "assistant" else "",
                       content := d.text } }
          st.isFirstContentChunk m c t st rfl
        simp only [f1, f2, f3, Option.isSome_some]
        cases st.isFirstContentChunk <;> simp
  · rw [if_neg h1]
    by_cases h2 : e.event = "replace_response"
    · simp only [h2, reduceIte, or_true, if_true]
      cases hu : unmarshalPartialData e.data with
      | none => simp [emitCarriesRole, h1, h2]
      | some d =>
          obtain ⟨f1, f2, f3⟩ := finalizeChunk_spec
            { delta := { role := if st.isFirstContentChunk then "assistant" else "",
                         content := d.text } }
            st.isFirstContentChunk m c t st rfl
          simp only [f1, f2, f3, Option.isSome_some]
          cases st.isFirstContentChunk <;> simp [h1]
    · rw [if_neg h2]
      rw [if_neg (show ¬(e.event = "text" ∨ e.event = "replace_response") by tauto)]
      by_cases h3 : e.event = "suggested_reply"
      · simp [h3, emitCarriesRole]
      · rw [if_neg h3]
        by_cases h4 : e.event = "meta"
        · simp [h4, emitCarriesRole]
        · rw [if_neg h4]
          by_cases h5 : e.event = "json"
          · simp only [h5, reduceIte, if_true]
            cases hu : unmarshalPartialData e.data with
            | none => simp [emitCarriesRole]
            | some d =>
                rcases hex : jsonDeltaExtract d with ⟨tcs, cont⟩
                simp only [hex]
                have hfirst :
                    (if tcs.isSome then { st with hasMadeToolCall := true }
                      else st).isFirstContentChunk = st.isFirstContentChunk := by
                  split_ifs <;> rfl
                have hmade :
                    (if tcs.isSome then { st with hasMadeToolCall := true }
                      else st).hasMadeToolCall =
                      (st.hasMadeToolCall || tcs.isSome) := by
                  split_ifs with hs <;> simp [hs]
                obtain ⟨f1, f2, f3⟩ := finalizeChunk_spec
                  { delta :=
                      { role :=
                          if st.isFirstContentChunk && (tcs.isSome || cont != "")
                          then "assistant" else "",
                        content := cont,
                        toolCalls := tcs } }
                  (st.isFirstContentChunk && (tcs.isSome || cont != ""))
                  m c t
                  (if tcs.isSome then { st with hasMadeToolCall := true } else st)
                  rfl
                simp only [f1, f2, f3, hfirst, hmade]
                refine ⟨trivial, ?_, trivial⟩
                cases st.isFirstContentChunk <;> simp
          · rw [if_neg h5, if_neg h5]
            by_cases h6 : e.event = "error"
            · simp only [h6, reduceIte, if_true]
              cases hu : unmarshalError e.data with
              | none => simp [emitCarriesRole]
              | some errData => simp [emitCarriesRole]
            · rw [if_neg h6]
              by_cases h7 : e.event = "done"
              · simp only [h7, reduceIte, if_true]
                obtain ⟨f1, f2, f3⟩ := finalizeChunk_spec
                  { delta := { role := if st.isFirstContentChunk then "assistant" else "" },
                    finishReason :=
                      some (if st.hasMadeToolCall then "tool_calls" else "stop") }
                  st.isFirstContentChunk m c t st rfl
                simp only [f1, f2, f3]
                refine ⟨by simp, ?_, by simp⟩
                cases st.isFirstContentChunk <;> simp
              · rw [if_neg h7]
                simp [emitCarriesRole, h5, h7]

/-- Counting role-carrying chunks through a cons. -/
theorem roleChunkCount_cons (x : OpenAIChatCompletionChunk)
    (l : List OpenAIChatCompletionChunk) :
    roleChunkCount (x :: l) =
      (if chunkCarriesRole x then 1 else 0) + roleChunkCount l := by
  unfold roleChunkCount
  rw [List.filter_cons]
  split_ifs <;> simp [Nat.add_comm]

/-- Counting role-carrying chunks in a singleton. -/
theorem roleChunkCount_singleton (x : OpenAIChatCompletionChunk) :
    roleChunkCount [x] = if chunkCarriesRole x then 1 else 0 := by
  rw [roleChunkCount_cons]
  simp [roleChunkCount]

/-- One transducer call moves the 1-0 value of the pending flag into the
count of role-carrying chunks. -/
theorem transform_step_role_delta (e : PoeEvent) (m c : String) (t : Int)
    (st : TransducerState) :
    (if emitCarriesRole (TransformPoeEventToOpenAIChatCompletionChunk e m c t st).1
        then 1 else 0) +
      (if (TransformPoeEventToOpenAIChatCompletionChunk e m c t st).2.isFirstContentChunk
        then 1 else 0) =
      (if st.isFirstContentChunk then 1 else 0) := by
  obtain ⟨f1, f2, _⟩ := transform_step_flags e m c t st
  rw [f1, f2]
  cases st.isFirstContentChunk <;> cases roleTrigger e <;> simp

/-- Session invariant: the number of role-carrying chunks written equals
the 1-0 drop of the pending flag across the session. -/
theorem runSession_role_invariant (m c : String) (t : Int)
    (evs : List PoeEvent) (st : TransducerState) :
    roleChunkCount (runSession m c t evs st).1 +
      (if (runSession m c t evs st).2.isFirstContentChunk then 1 else 0) =
      (if st.isFirstContentChunk then 1 else 0) := by
  induction evs generalizing st with
  | nil => simp [runSession, roleChunkCount]
  | cons e rest ih =>
      have hdelta := transform_step_role_delta e m c t st
      have hih := ih (TransformPoeEventToOpenAIChatCompletionChunk e m c t st).2
      simp only [runSession]
      cases hr : (TransformPoeEventToOpenAIChatCompletionChunk e m c t st).1 with
      | fail msg =>
          rw [hr] at hdelta
          simp only [emitCarriesRole] at hdelta
          simp only [hr]
          by_cases hterm : goHasPre msg "terminate_stream_with_error:" = true
          · simp only [hterm, if_true]
            simpa [roleChunkCount] using hdelta
          · simp only [hterm, Bool.false_eq_true, if_false]
            rw [hih]
            simpa using hdelta
      | skip =>
          rw [hr] at hdelta
          simp only [emitCarriesRole] at hdelta
          simp only [hr]
          by_cases hdone : e.event = "done"
          · simp only [hdone, eq_self_iff_true, if_true]
            simpa [roleChunkCount] using hdelta
          · simp only [hdone, if_false]
            rw [hih]
            simpa using hdelta
      | emit ch =>
          rw [hr] at hdelta
          simp only [emitCarriesRole] at hdelta
          simp only [hr]
          by_cases hdone : e.event = "done"
          · simp only [hdone, eq_self_iff_true, if_true]
            simpa [roleChunkCount_singleton] using hdelta
          · simp only [hdone, if_false]
            rw [roleChunkCount_cons, Nat.add_assoc, hih]
            exact hdelta

/-- C1 (amended): over any session started with the pending flag set, the
number of emitted chunks that carry a role equals 1 exactly when the final
state has the flag cleared and 0 otherwise — so a role is emitted at most
once, and exactly once whenever the transition fires; the transition fires
on a chunk exactly when the pending flag is set and the event is a "text"
or "replace_response" event with parsable payload (even with empty
content), a "json" event yielding tool calls or non-empty content, or the
"done" event (`roleTrigger`). -/
theorem role_emitted_once (m c : String) (t : Int) (evs : List PoeEvent)
    (e : PoeEvent) (st : TransducerState) :
    roleChunkCount
        (runSession m c t evs
          { isFirstContentChunk := true, hasMadeToolCall := false }).1 =
      (if (runSession m c t evs
            { isFirstContentChunk := true, hasMadeToolCall := false }).2.isFirstContentChunk
        then 0 else 1) ∧
    emitCarriesRole (TransformPoeEventToOpenAIChatCompletionChunk e m c t st).1 =
      (st.isFirstContentChunk && roleTrigger e) := by
  constructor
  · have h := runSession_role_invariant m c t evs
      { isFirstContentChunk := true, hasMadeToolCall := false }
    cases hfin : (runSession m c t evs
        { isFirstContentChunk := true, hasMadeToolCall := false }).2.isFirstContentChunk <;>
      (rw [hfin] at h; simp at h ⊢; omega)
  · exact (transform_step_flags e m c t st).1

/-- C1 counterexample: a "text" event whose payload has empty text — and
which is not the "done" event — still performs the role transition on the
very first chunk: the emitted chunk carries role "assistant" with empty
content and no tool calls, and the pending flag is cleared. -/
theorem role_transition_counterexample :
    TransformPoeEventToOpenAIChatCompletionChunk exTextEmptyEvent "m" "c" 0
        { isFirstContentChunk := true, hasMadeToolCall := false } =
      (TransformResult.emit
        { id := "c", object := "chat.completion.chunk", created := 0, model := "m",
          choices := [{ delta := { role := "assistant", content := "", toolCalls := none },
                        finishReason := none }] },
       { isFirstContentChunk := false, hasMadeToolCall := false }) ∧
    exTextEmptyEvent.event ≠ "done" :=
  ⟨rfl, by decide⟩

/-- The tool-call flag after feeding a list of events is the initial flag
joined with "some event sets the flag". -/
theorem runAllState_toolFlag (m c : String) (t : Int) (evs : List PoeEvent)
    (st : TransducerState) :
    (runAllState m c t evs st).hasMadeToolCall =
      (st.hasMadeToolCall || evs.any setsToolCall) := by
  induction evs generalizing st with
  | nil => simp [runAllState]
  | cons e rest ih =>
      have hstep := (transform_step_flags e m c t st).2.2
      unfold runAllState at ih ⊢
      simp only [List.foldl_cons, List.any_cons]
      rw [ih, hstep, Bool.or_assoc]

/-- Transforming a "done" event always emits a chunk whose finish reason
is "tool_calls" when the tool-call flag is set and "stop" otherwise. -/
theorem transform_done_finish (dd : EventData) (m c : String) (t : Int)
    (s : TransducerState) :
    emittedFinishReason
      (TransformPoeEventToOpenAIChatCompletionChunk { event := "done", data := dd }
        m c t s).1 =
      some (if s.hasMadeToolCall then "tool_calls" else "stop") := by
  unfold TransformPoeEventToOpenAIChatCompletionChunk
  simp only [reduceIte]
  unfold finalizeChunk
  rw [if_neg (by simp)]
  simp [emittedFinishReason]

/-- C2: appending a "done" event to any processed event sequence yields a
chunk whose finish reason is "tool_calls" exactly when some earlier event
of the sequence set the tool-call flag (a "json" event with mapped tool
calls), and "stop" otherwise; the flag equals that observation. -/
theorem done_finish_reason (m c : String) (t : Int) (evs : List PoeEvent)
    (dd : EventData) :
    (runAllState m c t evs
        { isFirstContentChunk := true, hasMadeToolCall := false }).hasMadeToolCall =
      evs.any setsToolCall ∧
    emittedFinishReason
      (TransformPoeEventToOpenAIChatCompletionChunk { event := "done", data := dd }
        m c t
        (runAllState m c t evs
          { isFirstContentChunk := true, hasMadeToolCall := false })).1 =
      some (if evs.any setsToolCall then "tool_calls" else "stop") := by
  have hflag := runAllState_toolFlag m c t evs
    { isFirstContentChunk := true, hasMadeToolCall := false }
  simp only [Bool.false_or] at hflag
  refine ⟨hflag, ?_⟩
  rw [transform_done_finish, hflag]

end Poepenai
